import Mathlib

/-
Verification development for the ixentbench-leaderboard repository
(single source file generate_compose.py).

Part 1 embeds the long-polling request handler dummy_rpc that the
FIX_SCRIPT_SOURCE string injects into the green agent (lines 113-155 of
generate_compose.py).  The handler is a Flask route: it records
start_time, then loops forever; each iteration globs a fixed pattern
list, and if any files matched it sorts them by modification time
(newest first), takes the first, and when its age is below 600 seconds
returns one fixed JSON body with final set to true; otherwise, when the
elapsed time exceeds 1800 seconds it returns a JSON error body with
HTTP status 504; otherwise it sleeps 4 seconds and repeats.

The embedding uses an idealized discrete clock: scanning is
instantaneous, so every call to time.time() inside iteration k returns
start + 4 * k (the sleep is the only passage of time).  The filesystem
is a function from the iteration index to the list of glob results at
that instant (glob expansion itself is outside the program).  Because a
Flask view sends the client exactly the value it returns - the print
calls go to the server log, not to the client - the client-visible
event trace of a session is the one-element list holding the returned
body.

Part 2 embeds resolve_image (lines 204-224) and parse_scenario (lines
227-245).  Dictionaries become structures with Option-valued fields
(presence of a key = some); every print+sys.exit(1) site becomes a
distinct ExitError constructor; fetch_agent_info is an abstract total
function parameter (the network call either yields a catalog record or
terminates the process; we embed the behaviour given records are
returned, with docker_image present as the code unconditionally indexes
it and id optional as the code tests membership).
-/

/-- Poll period: the code sleeps 4 seconds at the end of each loop iteration. -/
def POLL_PERIOD : Int := 4

/-- Freshness window: the code accepts a candidate only when age < 600 seconds. -/
def FRESHNESS_WINDOW : Int := 600

/-- Timeout ceiling: the code returns 504 once elapsed time exceeds 1800 seconds. -/
def TIMEOUT_CEILING : Int := 1800

/-- A filesystem entry visible to glob: path, last-modified time (seconds),
and raw contents.  The handler reads only path and mtime; contents are
carried so we can state what the handler does not do with them. -/
structure FileEntry where
  path : String
  mtime : Int
  content : String
  deriving DecidableEq

/-- The fixed JSON result body built at the success return site of dummy_rpc
(the jsonify call at lines 139-147 of the injected script). -/
structure JsonResult where
  contextId : String
  taskId : String
  id : String
  state : String
  final : Bool
  messageId : String
  role : String
  partsText : String
  partsMime : String
  deriving DecidableEq

/-- The literal success body: every field is a constant of the source. -/
def completedResult : JsonResult :=
  { contextId := "ctx", taskId := "task", id := "task", state := "completed",
    final := true, messageId := "msg-done", role := "assistant",
    partsText := "Game Finished", partsMime := "text/plain" }

/-- All leaf strings of the success JSON body, in source order. -/
def responseStrings (r : JsonResult) : List String :=
  [r.contextId, r.taskId, r.id, r.state, r.messageId, r.role, r.partsText, r.partsMime]

/-- A value returned to the client: either the success JSON body, or an
error JSON body together with its HTTP status code. -/
inductive RpcResponse where
  | ok (result : JsonResult)
  | err (message : String) (httpStatus : Nat)
  deriving DecidableEq

/-- The timeout return site: jsonify of an error object, HTTP 504.
Note the body has no final field at all. -/
def timeoutResponse : RpcResponse :=
  RpcResponse.err "timeout_waiting_results" 504

/-- files.sort(key=os.path.getmtime, reverse=True); last_file = files[0].
Python sort is stable, so the selected element is the first one, in glob
order, among those of maximal mtime. -/
def selectNewest : List FileEntry → Option FileEntry
  | [] => none
  | f :: fs =>
    match selectNewest fs with
    | none => some f
    | some g => if g.mtime > f.mtime then some g else some f

/-- age = now - mtime; the candidate is fresh when age < 600. -/
def isFresh (now mtime : Int) : Bool :=
  decide (now - mtime < FRESHNESS_WINDOW)

/-- One loop iteration of dummy_rpc at wall-clock instant now, given the
glob results files: some response means the handler returns, none means
it sleeps and loops.  Mirrors the source order: the success check runs
first (inside the nonempty-files branch), then the timeout check. -/
def stepResult (start now : Int) (files : List FileEntry) : Option RpcResponse :=
  match selectNewest files with
  | some f =>
    if isFresh now f.mtime then some (RpcResponse.ok completedResult)
    else if TIMEOUT_CEILING < now - start then some timeoutResponse
    else none
  | none =>
    if TIMEOUT_CEILING < now - start then some timeoutResponse
    else none

/-- Fuel-indexed unfolding of the while-True loop from iteration k.
The loop needs no fuel in the source: the timeout branch fires at the
first iteration whose elapsed time 4 * k exceeds 1800, namely k = 451,
so 452 iterations always suffice; totality with fuel MAX_ITERS is proved
below (runAux_total). -/
def runAux (fs : Nat → List FileEntry) (start : Int) : Nat → Nat → Option (Nat × RpcResponse)
  | 0, _ => none
  | fuel + 1, k =>
    match stepResult start (start + POLL_PERIOD * (k : Int)) (fs k) with
    | some r => some (k, r)
    | none => runAux fs start fuel (k + 1)

/-- 452 iterations (k = 0 .. 451) bound the loop: 451 is the least k with
POLL_PERIOD * k > TIMEOUT_CEILING. -/
def MAX_ITERS : Nat := 452

/-- The whole handler: run the loop from iteration 0.  The result is the
iteration index at which the handler returned together with the body it
returned. -/
def dummyRpc (fs : Nat → List FileEntry) (start : Int) : Option (Nat × RpcResponse) :=
  runAux fs start MAX_ITERS 0

/-- The handler run inside a given process environment.  The injected
script never reads os.environ, command-line flags, or any other
configuration for the poll period, freshness window, or timeout
ceiling - they are the literals 4, 600, 1800 - so the environment is
ignored. -/
def dummyRpcWithEnv (_envVars : List (String × String)) (fs : Nat → List FileEntry) (start : Int) :
    Option (Nat × RpcResponse) :=
  dummyRpc fs start

/-- The sequence of events the client receives in one session: a Flask
view sends exactly the value it returns (prints go to the server log),
so the trace is the single returned body. -/
def clientTrace : Option (Nat × RpcResponse) → List RpcResponse
  | none => []
  | some (_, r) => [r]

/-- Whether a client-visible event carries final = true.  The error body
has no final field, hence false. -/
def carriesFinalTrue : RpcResponse → Bool
  | RpcResponse.ok r => r.final
  | RpcResponse.err _ _ => false

/-- Whether a client-visible event is a non-terminal working heartbeat. -/
def isWorkingEvent : RpcResponse → Bool
  | RpcResponse.ok r => r.state == "working"
  | RpcResponse.err _ _ => false

/-- An agent table from scenario.toml as a dictionary: an Option-valued
field is some exactly when the key is present.  Only the keys that
resolve_image and parse_scenario touch are modelled. -/
structure Agent where
  image : Option String
  agentbeats_id : Option String
  webhook_id : Option String
  name : Option String
  deriving DecidableEq

/-- A catalog record returned by fetch_agent_info: the code indexes
docker_image unconditionally and tests membership of id. -/
structure CatalogInfo where
  docker_image : String
  id : Option String
  deriving DecidableEq

/-- One constructor per print+sys.exit(1) site reached from resolve_image
and parse_scenario; every such site exits with status 1 and they differ
only in the printed message.  The printed list of duplicate names is not
carried: Python iterates a set, whose order is unspecified. -/
inductive ExitError where
  | bothImageAndId (who : String)
  | requiresIdForGH (who : String)
  | missingImageAndId (who : String)
  | duplicateNames
  deriving DecidableEq

/-- Python truthiness of os.environ.get: None (unset) and the empty
string are falsy, any other string is truthy. -/
def truthy : Option String → Bool
  | none => false
  | some s => !(s == "")

/-- resolve_image (lines 204-224).  In-place mutation of the agent dict
becomes returning the updated agent; sys.exit(1) becomes Except.error.
fetch is the success behaviour of fetch_agent_info (which otherwise
terminates the process before resolve_image continues). -/
def resolveImage (envGH : Option String) (fetch : String → CatalogInfo)
    (agent : Agent) (who : String) : Except ExitError Agent :=
  match agent.image, agent.agentbeats_id with
  | some _, some _ => Except.error (ExitError.bothImageAndId who)
  | some _, none =>
    if truthy envGH then Except.error (ExitError.requiresIdForGH who)
    else Except.ok agent
  | none, some aid =>
    let info := fetch aid
    Except.ok { agent with
      image := some info.docker_image,
      webhook_id := match info.id with
        | some cid => some cid
        | none => agent.webhook_id }
  | none, none => Except.error (ExitError.missingImageAndId who)

/-- The label used in participant error messages:
participant.get("name", "unknown") interpolated after the word
participant (source quoting of the name is not reproduced). -/
def participantLabel (p : Agent) : String :=
  "participant " ++ p.name.getD "unknown"

/-- The for-loop of parse_scenario over participants: resolve each in
order, stopping at the first exit. -/
def resolveAll (envGH : Option String) (fetch : String → CatalogInfo) :
    List Agent → Except ExitError (List Agent)
  | [] => Except.ok []
  | p :: ps =>
    match resolveImage envGH fetch p (participantLabel p) with
    | Except.error e => Except.error e
    | Except.ok q =>
      match resolveAll envGH fetch ps with
      | Except.error e => Except.error e
      | Except.ok qs => Except.ok (q :: qs)

/-- duplicates = [name for name in set(names) if names.count(name) > 1];
the check "if duplicates:" is equivalent to: some name occurs more than
once. -/
def hasDuplicateNames (names : List (Option String)) : Bool :=
  names.any (fun n => 1 < names.count n)

/-- The part of the parsed scenario data that parse_scenario inspects or
mutates; remaining toml tables pass through it untouched. -/
structure Scenario where
  green_agent : Agent
  participants : List Agent
  deriving DecidableEq

/-- parse_scenario (lines 227-245), after toml parsing: resolve the green
agent, then check participant names for duplicates, then resolve every
participant in order, returning the (mutated) data. -/
def parseScenario (envGH : Option String) (fetch : String → CatalogInfo)
    (sc : Scenario) : Except ExitError Scenario :=
  match resolveImage envGH fetch sc.green_agent "green_agent" with
  | Except.error e => Except.error e
  | Except.ok g =>
    if hasDuplicateNames (sc.participants.map Agent.name) then
      Except.error ExitError.duplicateNames
    else
      match resolveAll envGH fetch sc.participants with
      | Except.error e => Except.error e
      | Except.ok ps => Except.ok { green_agent := g, participants := ps }

/-- A directory in which no file ever appears. -/
def emptyFs : Nat → List FileEntry := fun _ => []

/-- A directory holding, at every poll, only a file last modified 1201
seconds before a session starting at instant 0 (and aging further). -/
def staleFs : Nat → List FileEntry := fun _ => [⟨"results/old.json", -1201, "left over"⟩]

/-- A directory holding a just-written result.json whose content is the
nine-character JSON text from the spec scenario. -/
def resultJsonFs : Nat → List FileEntry :=
  fun _ => [⟨"output/result.json", 0, "\x7b\"score\": 1\x7d"⟩]

/-- A directory holding a just-written file of a different name and
content. -/
def otherNameFs : Nat → List FileEntry :=
  fun _ => [⟨"output/other.bin", 0, "unrelated bytes"⟩]

/-- Two files with distinct modification times, older first in glob order. -/
def fileA : FileEntry := ⟨"results/a.json", 10, "a"⟩

/-- The more recently modified of the two sample files. -/
def fileB : FileEntry := ⟨"results/b.json", 20, "b"⟩

/-- A concrete catalog: every id resolves to the same record. -/
def fetch0 : String → CatalogInfo := fun _ => ⟨"registry/image:1", none⟩

/-- An agent carrying only an image key. -/
def agentImgOnly : Agent := ⟨some "local/image:dev", none, none, none⟩

/-- An agent carrying only an agentbeats_id key. -/
def agentIdOnly : Agent := ⟨none, some "abc", none, none⟩

/-- A green agent carrying both image and agentbeats_id. -/
def greenBoth : Agent := ⟨some "img", some "abc", none, none⟩

/-- Two participants sharing the name a. -/
def participantsDup : List Agent :=
  [⟨some "ia", none, none, some "a"⟩, ⟨some "ib", none, none, some "a"⟩]

/-- Two participants with distinct names. -/
def participantsOk : List Agent :=
  [⟨some "ia", none, none, some "a"⟩, ⟨some "ib", none, none, some "b"⟩]

/-- Scenario with an invalid green agent and duplicate participant names. -/
def scenarioGreenBadDup : Scenario := ⟨greenBoth, participantsDup⟩

/-- Scenario with a valid green agent and distinct participant names. -/
def scenarioOk : Scenario := ⟨agentImgOnly, participantsOk⟩

/-- A scan returning no candidate means the glob results were empty. -/
theorem selectNewest_eq_none (files : List FileEntry) (h : selectNewest files = none) :
    files = [] := by
  cases files with
  | nil => rfl
  | cons a as =>
    exfalso
    rw [selectNewest] at h
    cases hs : selectNewest as with
    | none => rw [hs] at h; exact Option.noConfusion h
    | some g =>
      rw [hs] at h
      dsimp only at h
      by_cases hgt : g.mtime > a.mtime
      · rw [if_pos hgt] at h; exact Option.noConfusion h
      · rw [if_neg hgt] at h; exact Option.noConfusion h

/-- The selected candidate is a member of the scan result and carries its
maximal modification time. -/
theorem selectNewest_spec (files : List FileEntry) :
    ∀ f, selectNewest files = some f → f ∈ files ∧ ∀ g ∈ files, g.mtime ≤ f.mtime := by
  induction files with
  | nil => intro f h; exact Option.noConfusion h
  | cons a as ih =>
    intro f h
    rw [selectNewest] at h
    cases hs : selectNewest as with
    | none =>
      rw [hs] at h
      have hnil := selectNewest_eq_none as hs
      subst hnil
      have hf : a = f := Option.some.inj h
      subst hf
      refine ⟨List.mem_cons_self _ _, ?_⟩
      intro g hg
      rcases List.mem_cons.mp hg with hgf | hg2
      · rw [hgf]
      · exact absurd hg2 (List.not_mem_nil g)
    | some g0 =>
      rw [hs] at h
      dsimp only at h
      obtain ⟨hg0mem, hg0max⟩ := ih g0 hs
      by_cases hgt : g0.mtime > a.mtime
      · rw [if_pos hgt] at h
        have hf : g0 = f := Option.some.inj h
        subst hf
        refine ⟨List.mem_cons_of_mem a hg0mem, ?_⟩
        intro g hg
        rcases List.mem_cons.mp hg with hgf | hg2
        · rw [hgf]; omega
        · exact hg0max g hg2
      · rw [if_neg hgt] at h
        have hf : a = f := Option.some.inj h
        subst hf
        refine ⟨List.mem_cons_self _ _, ?_⟩
        intro g hg
        rcases List.mem_cons.mp hg with hgf | hg2
        · rw [hgf]
        · have := hg0max g hg2; omega

/-- Every value an iteration can return is the fixed success body or the
timeout error. -/
theorem stepResult_shape (start now : Int) (files : List FileEntry) (r : RpcResponse)
    (h : stepResult start now files = some r) :
    r = RpcResponse.ok completedResult ∨ r = timeoutResponse := by
  unfold stepResult at h
  split at h
  · split at h
    · exact Or.inl (Option.some.inj h).symm
    · split at h
      · exact Or.inr (Option.some.inj h).symm
      · exact Option.noConfusion h
  · split at h
    · exact Or.inr (Option.some.inj h).symm
    · exact Option.noConfusion h

/-- A success return happens only through a selected candidate that
passes the freshness test. -/
theorem stepResult_success_fresh (start now : Int) (files : List FileEntry)
    (h : stepResult start now files = some (RpcResponse.ok completedResult)) :
    ∃ f, selectNewest files = some f ∧ isFresh now f.mtime = true := by
  unfold stepResult at h
  split at h
  · rename_i f hf
    refine ⟨f, hf, ?_⟩
    by_contra hnf
    rw [Bool.not_eq_true] at hnf
    rw [hnf] at h
    simp only [Bool.false_eq_true, if_false] at h
    split at h
    · exact RpcResponse.noConfusion (Option.some.inj h)
    · exact Option.noConfusion h
  · split at h
    · exact RpcResponse.noConfusion (Option.some.inj h)
    · exact Option.noConfusion h

/-- When the selected candidate (if any) fails the freshness test, the
iteration reduces to the bare timeout check. -/
theorem stepResult_of_not_fresh (start now : Int) (files : List FileEntry)
    (hnf : ∀ f, selectNewest files = some f → isFresh now f.mtime = false) :
    stepResult start now files =
      if TIMEOUT_CEILING < now - start then some timeoutResponse else none := by
  unfold stepResult
  split
  · rename_i f hs
    rw [hnf f hs]
    simp only [Bool.false_eq_true, if_false]
  · rfl

/-- From iteration 451 on, the elapsed time exceeds the ceiling, so an
iteration always returns. -/
theorem stepResult_late (start : Int) (files : List FileEntry) (k : Nat) (hk : 451 ≤ k) :
    stepResult start (start + POLL_PERIOD * (k : Int)) files ≠ none := by
  have hbig : TIMEOUT_CEILING < (start + POLL_PERIOD * (k : Int)) - start := by
    unfold TIMEOUT_CEILING POLL_PERIOD
    have h451 : (451 : Int) ≤ (k : Int) := by exact_mod_cast hk
    omega
  intro h
  unfold stepResult at h
  cases hs : selectNewest files with
  | some f =>
    rw [hs] at h
    dsimp only at h
    by_cases hf : isFresh (start + POLL_PERIOD * (k : Int)) f.mtime = true
    · rw [if_pos hf] at h; exact Option.noConfusion h
    · rw [if_neg hf, if_pos hbig] at h; exact Option.noConfusion h
  | none =>
    rw [hs] at h
    dsimp only at h
    rw [if_pos hbig] at h
    exact Option.noConfusion h

/-- Results of the loop: the return index lies within the fuel interval
and the returned body is the success body or the timeout error. -/
theorem runAux_shape (fs : Nat → List FileEntry) (start : Int) :
    ∀ fuel k k' r, runAux fs start fuel k = some (k', r) →
      k ≤ k' ∧ k' < k + fuel ∧ (r = RpcResponse.ok completedResult ∨ r = timeoutResponse) := by
  intro fuel
  induction fuel with
  | zero => intro k k' r h; exact Option.noConfusion h
  | succ n ih =>
    intro k k' r h
    rw [runAux] at h
    cases hstep : stepResult start (start + POLL_PERIOD * (k : Int)) (fs k) with
    | some r0 =>
      rw [hstep] at h
      simp only [Option.some.injEq, Prod.mk.injEq] at h
      obtain ⟨hk, hr⟩ := h
      subst hk; subst hr
      exact ⟨le_refl _, by omega, stepResult_shape _ _ _ _ hstep⟩
    | none =>
      rw [hstep] at h
      obtain ⟨h1, h2, h3⟩ := ih (k + 1) k' r h
      exact ⟨by omega, by omega, h3⟩

/-- The loop always returns when run with the fuel bound MAX_ITERS. -/
theorem runAux_total (fs : Nat → List FileEntry) (start : Int) :
    ∀ fuel k, k + fuel = MAX_ITERS → fuel ≠ 0 →
      ∃ k' r, runAux fs start fuel k = some (k', r) := by
  intro fuel
  induction fuel with
  | zero => intro k _ hf; exact absurd rfl hf
  | succ n ih =>
    intro k hk _
    rw [runAux]
    cases hstep : stepResult start (start + POLL_PERIOD * (k : Int)) (fs k) with
    | some r => exact ⟨k, r, rfl⟩
    | none =>
      have hM : MAX_ITERS = 452 := rfl
      have hn : n ≠ 0 := by
        intro h0
        subst h0
        have hk451 : k = 451 := by omega
        subst hk451
        exact stepResult_late start (fs 451) 451 (le_refl _) hstep
      obtain ⟨k', r, hr⟩ := ih (k + 1) (by omega) hn
      exact ⟨k', r, hr⟩

/-- When no iteration ever sees a fresh selected candidate, the loop
returns the timeout error at iteration 451 exactly. -/
theorem runAux_timeout (fs : Nat → List FileEntry) (start : Int)
    (hstale : ∀ (j : Nat) f, selectNewest (fs j) = some f →
      isFresh (start + POLL_PERIOD * (j : Int)) f.mtime = false) :
    ∀ fuel k, k + fuel = MAX_ITERS → k ≤ 451 →
      runAux fs start fuel k = some (451, timeoutResponse) := by
  intro fuel
  induction fuel with
  | zero =>
    intro k hk hk451
    have hM : MAX_ITERS = 452 := rfl
    omega
  | succ n ih =>
    intro k hk hk451
    have hM : MAX_ITERS = 452 := rfl
    rw [runAux]
    have hred := stepResult_of_not_fresh start (start + POLL_PERIOD * (k : Int)) (fs k)
      (fun f hf => hstale k f hf)
    by_cases hlast : k = 451
    · subst hlast
      have hbig : TIMEOUT_CEILING < (start + POLL_PERIOD * ((451 : Nat) : Int)) - start := by
        unfold TIMEOUT_CEILING POLL_PERIOD
        omega
      rw [hred, if_pos hbig]
    · have hsmall : ¬ TIMEOUT_CEILING < (start + POLL_PERIOD * ((k : Nat) : Int)) - start := by
        unfold TIMEOUT_CEILING POLL_PERIOD
        have hle : (k : Int) ≤ 450 := by exact_mod_cast Nat.le_of_lt_succ (by omega)
        omega
      rw [hred, if_neg hsmall]
      exact ih (k + 1) (by omega) (by omega)

/-- The handler always returns: one terminal body per session, at some
iteration index at most 451, and the body is the fixed success JSON or
the 504 timeout error. -/
theorem dummyRpc_total (fs : Nat → List FileEntry) (start : Int) :
    ∃ k r, dummyRpc fs start = some (k, r) ∧ k ≤ 451 ∧
      (r = RpcResponse.ok completedResult ∨ r = timeoutResponse) := by
  obtain ⟨k, r, h⟩ := runAux_total fs start MAX_ITERS 0 rfl (by decide)
  obtain ⟨_, hlt, hshape⟩ := runAux_shape fs start MAX_ITERS 0 k r h
  have hM : MAX_ITERS = 452 := rfl
  exact ⟨k, r, h, by omega, hshape⟩

/-- Additional fixtures used by witnesses and counterexamples. -/
def freshFile : FileEntry := ⟨"results/r.json", 0, "fresh"⟩

/-- An agent carrying neither image nor agentbeats_id. -/
def agentNone : Agent := ⟨none, none, none, none⟩

/-- Scenario with a valid green agent but duplicate participant names. -/
def scenarioDupOkGreen : Scenario := ⟨agentImgOnly, participantsDup⟩

/-- A fresh selected candidate always makes the iteration return the
success body, whatever the session start time. -/
theorem stepResult_success_of_fresh (start now : Int) (files : List FileEntry) (f : FileEntry)
    (hf : selectNewest files = some f) (hfresh : isFresh now f.mtime = true) :
    stepResult start now files = some (RpcResponse.ok completedResult) := by
  unfold stepResult
  rw [hf]
  dsimp only
  rw [if_pos hfresh]

/-- C1 (amended): every session delivers exactly one client-visible
event and it is terminal - the fixed success body with final = true or
the 504 timeout error body; the timeout body carries no final field, so
final = true occurs at most once and only as the last (sole) event. -/
theorem c1_terminal_event_shape (fs : Nat → List FileEntry) (start : Int) :
    ∃ k r, dummyRpc fs start = some (k, r) ∧
      clientTrace (dummyRpc fs start) = [r] ∧
      (r = RpcResponse.ok completedResult ∨ r = timeoutResponse) ∧
      List.countP carriesFinalTrue (clientTrace (dummyRpc fs start)) ≤ 1 ∧
      carriesFinalTrue timeoutResponse = false := by
  obtain ⟨k, r, h, _, hshape⟩ := dummyRpc_total fs start
  refine ⟨k, r, h, ?_, hshape, ?_, rfl⟩
  · rw [h]; rfl
  · rw [h]
    show List.countP carriesFinalTrue [r] ≤ 1
    rcases hshape with hr | hr <;> subst hr <;> decide

set_option maxRecDepth 4000 in
/-- C1 counterexample: on a session in which no file ever appears, the
handler ends with the 504 timeout error and the delivered event sequence
contains zero events with final = true, refuting exactly one event with
final = true and refuting a timeout terminal event carrying final =
true. -/
theorem c1_counterexample :
    dummyRpc emptyFs 0 = some (451, timeoutResponse) ∧
    List.countP carriesFinalTrue (clientTrace (dummyRpc emptyFs 0)) = 0 := by
  have h : dummyRpc emptyFs 0 = some (451, timeoutResponse) := rfl
  refine ⟨h, ?_⟩
  rw [h]
  rfl

/-- C2 (amended): the terminal success body is the fixed constant JSON
whose message part reads Game Finished; the name and the contents of the
detected candidate file do not occur in it (the basename is only printed
to the server log and the file is never read). -/
theorem c2_fixed_payload (fs : Nat → List FileEntry) (start : Int) :
    ∀ k j, dummyRpc fs start = some (k, RpcResponse.ok j) →
      j = completedResult ∧ j.partsText = "Game Finished" := by
  intro k j h
  obtain ⟨_, _, hshape⟩ := runAux_shape fs start MAX_ITERS 0 k (RpcResponse.ok j) h
  rcases hshape with hok | hto
  · have hj : j = completedResult := RpcResponse.ok.inj hok
    exact ⟨hj, by rw [hj]; rfl⟩
  · exact absurd hto (by simp [timeoutResponse])

/-- C2 witness: the theorem applied to the concrete session that detects
a fresh result.json at its first poll. -/
theorem c2_fixed_payload_witness :
    completedResult = completedResult ∧ completedResult.partsText = "Game Finished" :=
  c2_fixed_payload resultJsonFs 0 0 completedResult rfl

/-- C2 counterexample: with a fresh result.json whose content is the
spec text, the terminal event is the constant success body: it equals
the terminal event produced for a file of a different name and content,
and neither the basename result.json nor the content occurs among its
strings - so the event does not carry an artifact named result.json with
the file contents. -/
theorem c2_counterexample :
    dummyRpc resultJsonFs 0 = some (0, RpcResponse.ok completedResult) ∧
    dummyRpc resultJsonFs 0 = dummyRpc otherNameFs 0 ∧
    "result.json" ∉ responseStrings completedResult ∧
    "\x7b\"score\": 1\x7d" ∉ responseStrings completedResult := by
  refine ⟨rfl, rfl, ?_, ?_⟩ <;> decide

/-- C3: a candidate older than the freshness window is never the
completion signal: a success return requires the selected candidate to
pass the freshness test, and a session whose directory only ever holds
files with age beyond the window ends with the 504 timeout at poll 451,
not with the stale file. -/
theorem c3_stale_never_completes :
    (∀ (start now : Int) (files : List FileEntry),
      stepResult start now files = some (RpcResponse.ok completedResult) →
      ∃ f, selectNewest files = some f ∧ isFresh now f.mtime = true) ∧
    (∀ (fs : Nat → List FileEntry) (start : Int),
      (∀ (j : Nat) f, f ∈ fs j → FRESHNESS_WINDOW < (start + POLL_PERIOD * (j : Int)) - f.mtime) →
      dummyRpc fs start = some (451, timeoutResponse)) := by
  constructor
  · exact stepResult_success_fresh
  · intro fs start hst
    have hstale : ∀ (j : Nat) f, selectNewest (fs j) = some f →
        isFresh (start + POLL_PERIOD * (j : Int)) f.mtime = false := by
      intro j f hf
      obtain ⟨hmem, _⟩ := selectNewest_spec (fs j) f hf
      have hage := hst j f hmem
      unfold isFresh
      simp only [decide_eq_false_iff_not]
      omega
    exact runAux_timeout fs start hstale MAX_ITERS 0 rfl (Nat.zero_le _)

/-- C3 witness: a fresh file does trigger success through the freshness
test, and the session over a directory holding only a file modified 1201
seconds before the start (and no new file ever) ends with the timeout. -/
theorem c3_witness :
    (∃ f, selectNewest [freshFile] = some f ∧ isFresh 0 f.mtime = true) ∧
    dummyRpc staleFs 0 = some (451, timeoutResponse) := by
  constructor
  · exact c3_stale_never_completes.1 0 0 [freshFile] rfl
  · refine c3_stale_never_completes.2 staleFs 0 ?_
    intro j f hf
    simp only [staleFs, List.mem_singleton] at hf
    subst hf
    show FRESHNESS_WINDOW < (0 + POLL_PERIOD * (j : Int)) - (-1201)
    unfold FRESHNESS_WINDOW POLL_PERIOD
    omega

/-- C4 (amended): the handler sends no Working events to the client at
all - neither at session start nor as heartbeats; the client receives
exactly one event per session, the terminal body (the connection message
is only printed to the server log). -/
theorem c4_no_working_events (fs : Nat → List FileEntry) (start : Int) :
    List.countP isWorkingEvent (clientTrace (dummyRpc fs start)) = 0 ∧
    (clientTrace (dummyRpc fs start)).length = 1 := by
  obtain ⟨k, r, h, _, hshape⟩ := dummyRpc_total fs start
  rw [h]
  constructor
  · show List.countP isWorkingEvent [r] = 0
    rcases hshape with hr | hr <;> subst hr <;> decide
  · rfl

/-- C4 counterexample: in the concrete session that completes at its
very first poll, the client-visible event sequence is the single
terminal success body - it contains no Working event, refuting emit one
Working event immediately at session start. -/
theorem c4_counterexample :
    clientTrace (dummyRpc resultJsonFs 0) = [RpcResponse.ok completedResult] ∧
    List.countP isWorkingEvent (clientTrace (dummyRpc resultJsonFs 0)) = 0 := by
  constructor <;> rfl

/-- C5: when no fresh candidate ever appears, the loop returns the 504
timeout error at poll 451, whose wall-clock instant start + 4 * 451 is
within the ceiling 1800 plus one poll period 4 after session start. -/
theorem c5_timeout_bound (fs : Nat → List FileEntry) (start : Int)
    (hnofresh : ∀ (j : Nat) f, f ∈ fs j →
      isFresh (start + POLL_PERIOD * (j : Int)) f.mtime = false) :
    ∃ k, dummyRpc fs start = some (k, timeoutResponse) ∧
      start + POLL_PERIOD * (k : Int) ≤ start + TIMEOUT_CEILING + POLL_PERIOD := by
  have hstale : ∀ (j : Nat) f, selectNewest (fs j) = some f →
      isFresh (start + POLL_PERIOD * (j : Int)) f.mtime = false :=
    fun j f hf => hnofresh j f (selectNewest_spec (fs j) f hf).1
  refine ⟨451, runAux_timeout fs start hstale MAX_ITERS 0 rfl (Nat.zero_le _), ?_⟩
  unfold POLL_PERIOD TIMEOUT_CEILING
  omega

/-- C5 witness: the theorem applied to the session over a directory in
which no file ever appears. -/
theorem c5_witness :
    ∃ k, dummyRpc emptyFs 0 = some (k, timeoutResponse) ∧
      (0 : Int) + POLL_PERIOD * (k : Int) ≤ 0 + TIMEOUT_CEILING + POLL_PERIOD :=
  c5_timeout_bound emptyFs 0 (fun _ f hf => absurd hf (List.not_mem_nil f))

/-- C6: the candidate submitted to the freshness check is a scanned file
of maximal modification time - so with two candidates of different
modification times the more recently modified one is selected. -/
theorem c6_selects_most_recent (files : List FileEntry) (f : FileEntry)
    (h : selectNewest files = some f) :
    f ∈ files ∧ ∀ g ∈ files, g.mtime ≤ f.mtime :=
  selectNewest_spec files f h

/-- C6 witness: the theorem applied to two files with modification times
10 and 20, of which the handler selects the latter. -/
theorem c6_witness :
    fileB ∈ [fileA, fileB] ∧ ∀ g ∈ [fileA, fileB], g.mtime ≤ fileB.mtime :=
  c6_selects_most_recent [fileA, fileB] fileB rfl

/-- C7: the fresh-stale classification is a pure function of the age
now - mtime (and the constant window), and whether an iteration returns
the success body does not depend on the session start time - two
sessions looking at the same snapshot at the same instant decide
alike. -/
theorem c7_pure_classification :
    (∀ now1 m1 now2 m2 : Int, now1 - m1 = now2 - m2 →
      isFresh now1 m1 = isFresh now2 m2) ∧
    (∀ (start1 start2 now : Int) (files : List FileEntry),
      (stepResult start1 now files = some (RpcResponse.ok completedResult) ↔
       stepResult start2 now files = some (RpcResponse.ok completedResult))) := by
  constructor
  · intro now1 m1 now2 m2 h
    unfold isFresh
    rw [h]
  · intro s1 s2 now files
    constructor <;> intro h
    · obtain ⟨f, hf, hfresh⟩ := stepResult_success_fresh s1 now files h
      exact stepResult_success_of_fresh s2 now files f hf hfresh
    · obtain ⟨f, hf, hfresh⟩ := stepResult_success_fresh s2 now files h
      exact stepResult_success_of_fresh s1 now files f hf hfresh

/-- C7 witness: the theorem applied to two concrete instants of equal
age and to two sessions with start times 0 and 700 over the same
snapshot. -/
theorem c7_witness :
    isFresh 1000 500 = isFresh 2000 1500 ∧
    (stepResult 0 0 [fileA] = some (RpcResponse.ok completedResult) ↔
     stepResult 700 0 [fileA] = some (RpcResponse.ok completedResult)) :=
  ⟨c7_pure_classification.1 1000 500 2000 1500 (by decide),
   c7_pure_classification.2 0 700 0 [fileA]⟩

/-- C8 (amended): the poll period, freshness window, and timeout ceiling
are the hard-coded literals 4, 600 and 1800; the handler reads no
configuration, so its behaviour is identical under any two process
environments. -/
theorem c8_hardcoded_config (envA envB : List (String × String))
    (fs : Nat → List FileEntry) (start : Int) :
    dummyRpcWithEnv envA fs start = dummyRpcWithEnv envB fs start ∧
    POLL_PERIOD = 4 ∧ FRESHNESS_WINDOW = 600 ∧ TIMEOUT_CEILING = 1800 :=
  ⟨rfl, rfl, rfl, rfl⟩

set_option maxRecDepth 4000 in
/-- C8 counterexample: two configurations that differ in all three
values lead to identical handler behaviour, and even with an
environment naming a 10 second ceiling the empty-directory session still
times out at poll 451 (1804 seconds in) - refuting that the values are
taken from external configuration. -/
theorem c8_counterexample :
    dummyRpcWithEnv [("POLL_PERIOD", "1"), ("FRESHNESS_WINDOW", "60"), ("TIMEOUT_CEILING", "10")]
        emptyFs 0 =
      dummyRpcWithEnv [] emptyFs 0 ∧
    dummyRpcWithEnv [("TIMEOUT_CEILING", "10")] emptyFs 0 = some (451, timeoutResponse) := by
  refine ⟨rfl, ?_⟩
  rfl

/-- The duplicate test of parse_scenario holds exactly when some name
occurs more than once in the participant name list. -/
theorem hasDuplicateNames_iff (ns : List (Option String)) :
    hasDuplicateNames ns = true ↔ ∃ n ∈ ns, 1 < ns.count n := by
  unfold hasDuplicateNames
  rw [List.any_eq_true]
  simp only [decide_eq_true_eq]

/-- C9 (amended): resolve_image errors out when both or neither of image
and agentbeats_id are present; with only agentbeats_id it stores the
catalog docker_image (and the catalog id as webhook_id when present);
with only image it errors out when GITHUB_ACTIONS is set to a non-empty
(truthy) value and otherwise leaves the agent unchanged - an empty
GITHUB_ACTIONS value, although set, does not trigger the error. -/
theorem c9_resolve_image_cases (envGH : Option String) (fetch : String → CatalogInfo)
    (a : Agent) (who : String) :
    (∀ i j, a.image = some i → a.agentbeats_id = some j →
      resolveImage envGH fetch a who = Except.error (ExitError.bothImageAndId who)) ∧
    (a.image = none → a.agentbeats_id = none →
      resolveImage envGH fetch a who = Except.error (ExitError.missingImageAndId who)) ∧
    (∀ j, a.image = none → a.agentbeats_id = some j →
      resolveImage envGH fetch a who = Except.ok { a with
        image := some (fetch j).docker_image,
        webhook_id := match (fetch j).id with
          | some cid => some cid
          | none => a.webhook_id }) ∧
    (∀ i, a.image = some i → a.agentbeats_id = none → truthy envGH = true →
      resolveImage envGH fetch a who = Except.error (ExitError.requiresIdForGH who)) ∧
    (∀ i, a.image = some i → a.agentbeats_id = none → truthy envGH = false →
      resolveImage envGH fetch a who = Except.ok a) := by
  refine ⟨?_, ?_, ?_, ?_, ?_⟩
  · intro i j hi hj
    unfold resolveImage
    rw [hi, hj]
  · intro hi hj
    unfold resolveImage
    rw [hi, hj]
  · intro j hi hj
    unfold resolveImage
    rw [hi, hj]
  · intro i hi hj htr
    unfold resolveImage
    rw [hi, hj]
    dsimp only
    rw [if_pos htr]
  · intro i hi hj htr
    unfold resolveImage
    rw [hi, hj]
    dsimp only
    rw [if_neg (by rw [htr]; exact Bool.false_ne_true)]

/-- C9 witness: all five cases of the theorem applied at concrete
agents, with GITHUB_ACTIONS unset or set to the string true. -/
theorem c9_witness :
    resolveImage none fetch0 greenBoth "g" = Except.error (ExitError.bothImageAndId "g") ∧
    resolveImage none fetch0 agentNone "g" = Except.error (ExitError.missingImageAndId "g") ∧
    resolveImage none fetch0 agentIdOnly "g" = Except.ok { agentIdOnly with
      image := some (fetch0 "abc").docker_image,
      webhook_id := match (fetch0 "abc").id with
        | some cid => some cid
        | none => agentIdOnly.webhook_id } ∧
    resolveImage (some "true") fetch0 agentImgOnly "g" =
      Except.error (ExitError.requiresIdForGH "g") ∧
    resolveImage none fetch0 agentImgOnly "g" = Except.ok agentImgOnly :=
  ⟨(c9_resolve_image_cases none fetch0 greenBoth "g").1 "img" "abc" rfl rfl,
   (c9_resolve_image_cases none fetch0 agentNone "g").2.1 rfl rfl,
   (c9_resolve_image_cases none fetch0 agentIdOnly "g").2.2.1 "abc" rfl rfl,
   (c9_resolve_image_cases (some "true") fetch0 agentImgOnly "g").2.2.2.1
     "local/image:dev" rfl rfl rfl,
   (c9_resolve_image_cases none fetch0 agentImgOnly "g").2.2.2.2
     "local/image:dev" rfl rfl rfl⟩

/-- C9 counterexample: with GITHUB_ACTIONS present in the environment
but equal to the empty string - so the variable is set - an agent
carrying only image is returned unchanged instead of exiting with
status 1, because the code tests Python truthiness of the value, not
presence. -/
theorem c9_counterexample :
    resolveImage (some "") fetch0 agentImgOnly "green_agent" = Except.ok agentImgOnly ∧
    (some "" : Option String) ≠ none ∧
    truthy (some "") = false :=
  ⟨rfl, Option.some_ne_none "", rfl⟩

/-- C10 (amended): provided the green agent entry itself resolves
without exiting, a participant list with a repeated name makes
parse_scenario exit with the duplicate-name error before any
participant is resolved (whatever resolving them would do), and with
pairwise distinct names it resolves every participant in order and
returns the parsed data; the duplicate test means: some name occurs
more than once. -/
theorem c10_parse_scenario_order (envGH : Option String) (fetch : String → CatalogInfo)
    (sc : Scenario) (g : Agent)
    (hg : resolveImage envGH fetch sc.green_agent "green_agent" = Except.ok g) :
    (hasDuplicateNames (sc.participants.map Agent.name) = true →
      parseScenario envGH fetch sc = Except.error ExitError.duplicateNames) ∧
    (hasDuplicateNames (sc.participants.map Agent.name) = false →
      parseScenario envGH fetch sc =
        Except.map (fun ps => { green_agent := g, participants := ps })
          (resolveAll envGH fetch sc.participants)) ∧
    (hasDuplicateNames (sc.participants.map Agent.name) = true ↔
      ∃ n ∈ sc.participants.map Agent.name, 1 < (sc.participants.map Agent.name).count n) := by
  refine ⟨?_, ?_, hasDuplicateNames_iff _⟩
  · intro hdup
    unfold parseScenario
    rw [hg]
    dsimp only
    rw [if_pos hdup]
  · intro hdup
    unfold parseScenario
    rw [hg]
    dsimp only
    rw [if_neg (by rw [hdup]; exact Bool.false_ne_true)]
    cases hra : resolveAll envGH fetch sc.participants with
    | error e => rfl
    | ok ps => rfl

/-- C10 witness: the theorem applied to a scenario with a valid green
agent and distinct participant names (resolution proceeds and the data
is returned) and to one with a valid green agent and duplicate names
(the duplicate-name error). -/
theorem c10_witness :
    parseScenario none fetch0 scenarioOk =
      Except.map (fun ps => ({ green_agent := agentImgOnly, participants := ps } : Scenario))
        (resolveAll none fetch0 scenarioOk.participants) ∧
    parseScenario none fetch0 scenarioDupOkGreen = Except.error ExitError.duplicateNames :=
  ⟨(c10_parse_scenario_order none fetch0 scenarioOk agentImgOnly rfl).2.1 rfl,
   (c10_parse_scenario_order none fetch0 scenarioDupOkGreen agentImgOnly rfl).1 rfl⟩

/-- C10 counterexample: a scenario whose green agent carries both image
and agentbeats_id and whose two participants share the name a exits
with the green-agent error, not the duplicate-name error, because the
green agent is resolved before the duplicate check - refuting that
every scenario with duplicate participant names yields the
duplicate-name error. -/
theorem c10_counterexample :
    parseScenario none fetch0 scenarioGreenBadDup =
      Except.error (ExitError.bothImageAndId "green_agent") ∧
    hasDuplicateNames (scenarioGreenBadDup.participants.map Agent.name) = true ∧
    ExitError.bothImageAndId "green_agent" ≠ ExitError.duplicateNames := by
  refine ⟨rfl, by decide, by decide⟩
